import Mathlib

/-!
Verification development for the Pustakam book-generation pipeline
(React/TypeScript single-page application).

The definitions below are a shallow embedding of the orchestration core:
`src/services/compoundService.ts` (the Compound AI service), the `App.tsx`
handlers (book list mutation, completion detection, deletion), and the
`BookView.tsx` derived state.  TypeScript objects become structures, the
JSON values handled by the code become an inductive `Json` type, and the
external `JSON.parse` builtin is abstracted as a `String → Option Json`
argument.  Stateful pieces (the abort-controller map, the module-level
singleton, the React book list) are modelled by explicit state passing.
-/

/-- Runtime JSON values, as produced by the JSON.parse builtin and consumed
by the response-parsing code. -/
inductive Json where
  | null : Json
  | bool (b : Bool) : Json
  | num (n : Int) : Json
  | str (s : String) : Json
  | arr (elements : List Json) : Json
  | obj (fields : List (String × Json)) : Json

/-- Field lookup on a list of JSON object fields (first match wins, as in a
JavaScript object built by JSON.parse with distinct keys). -/
def lookupField : List (String × Json) → String → Option Json
  | [], _ => none
  | (k, v) :: rest, key => if k = key then some v else lookupField rest key

/-- Property access `value[key]` on a JSON value: defined on objects,
`undefined` (here `none`) on everything else. -/
def Json.getField : Json → String → Option Json
  | .obj fields, key => lookupField fields key
  | _, _ => none

/-- JavaScript truthiness of a JSON value (`undefined` is handled by callers
via `Option`). -/
def Json.truthy : Json → Bool
  | .null => false
  | .bool b => b
  | .num n => n ≠ 0
  | .str s => s ≠ ""
  | .arr _ => true
  | .obj _ => true

/-- Status enum of a Module Result (`BookModule.status` in `types/book`). -/
inductive ModuleStatus where
  | pending : ModuleStatus
  | completed : ModuleStatus
  | error : ModuleStatus
deriving DecidableEq, Repr

/-- Lifecycle status of a Project (`BookProject.status` in `types/book`,
enumerated in the `getStatusInfo` map of the header component). -/
inductive BookStatus where
  | planning : BookStatus
  | generating_roadmap : BookStatus
  | roadmap_completed : BookStatus
  | generating_content : BookStatus
  | assembling : BookStatus
  | completed : BookStatus
  | error : BookStatus
deriving DecidableEq, Repr

/-- One planned module of a Roadmap (`RoadmapModule` in `types/book`).
`objectives` and `estimatedTime` keep the raw JSON values the parser stores,
since `parseRoadmapResponse` does not validate their element types. -/
structure RoadmapModule where
  id : String
  title : String
  objectives : List Json
  estimatedTime : Json
  order : Nat

/-- The generation plan of a Project (`BookRoadmap` in `types/book`). -/
structure BookRoadmap where
  modules : List RoadmapModule
  totalModules : Nat
  estimatedReadingTime : Json
  difficultyLevel : Json

/-- A generated Module Result (`BookModule` in `types/book`). -/
structure BookModule where
  id : String
  roadmapModuleId : String
  title : String
  content : String
  wordCount : Nat
  status : ModuleStatus

/-- A Project (`BookProject` in `types/book`), restricted to the fields the
orchestration logic reads or writes. -/
structure BookProject where
  id : String
  title : String
  goal : String
  status : BookStatus
  progress : Nat
  modules : List BookModule
  roadmap : Option BookRoadmap
  finalBook : Option String
  error : Option String

/-- A generation session (`BookSession` in `types/book`), restricted to the
fields the service reads. -/
structure BookSession where
  goal : String
  targetAudience : String
  complexityLevel : String
  reasoning : String
  includeExamples : Bool
  includePracticalExercises : Bool

/-- Word-count predicate of `/\s+/`: the whitespace characters the regex
class `\s` matches on the ASCII range (space, tab, line feed, vertical tab,
form feed, carriage return). -/
def isJsWhitespace (c : Char) : Bool :=
  c = ' ' || c = '\t' || c = '\n' || c = '\x0b' || c = '\x0c' || c = '\r'

/-- Accumulator pass of `content.split(/\s+/).filter(w => w.length > 0)`:
splitting a string on maximal whitespace runs and dropping empty pieces
yields exactly the maximal non-whitespace runs, collected here in one scan
(`cur` holds the reversed current run). -/
def wordsAux (cur : List Char) : List Char → List (List Char)
  | [] => if cur.isEmpty then [] else [cur.reverse]
  | c :: cs =>
    if isJsWhitespace c then
      if cur.isEmpty then wordsAux [] cs else cur.reverse :: wordsAux [] cs
    else wordsAux (c :: cur) cs

/-- The whitespace-delimited non-empty tokens of a string, as computed by
`content.split(/\s+/).filter(w => w.length > 0)` in `generateResearchModule`. -/
def jsWords (s : String) : List (List Char) := wordsAux [] s.data

/-- The word count `content.split(/\s+/).filter(w => w.length > 0).length`. -/
def countWords (s : String) : Nat := (jsWords s).length

/-- JavaScript `String.prototype.trim`, over the character list (trailing and
leading whitespace removed). -/
def jsTrim (s : String) : String :=
  String.mk (((s.data.dropWhile isJsWhitespace).reverse.dropWhile isJsWhitespace).reverse)

/-- Parsed academic module (interface `AcademicModule` of
`compoundService.ts`).  The `exercises` section is optional and is absent in
every object `parseAcademicModule` builds. -/
structure AcademicModule where
  id : String
  title : String
  abstract : String
  introduction : String
  literature : String
  methodology : String
  content : String
  examples : String
  exercises : Option String
  conclusion : String
  references : List String
  keywords : List String

/-- One section block emitted by the `Object.entries(module.sections)` loop
of `formatAcademicModule`: empty sections are skipped (`if (!text) return`). -/
def sectionBlock (title text : String) : String :=
  if text = "" then "" else "## " ++ title ++ "\n\n" ++ text ++ "\n\n"

/-- Numbered reference lines emitted by `formatAcademicModule`. -/
def referenceLines : Nat → List String → String
  | _, [] => ""
  | i, r :: rest => "[" ++ toString (i + 1) ++ "] " ++ r ++ "\n\n" ++ referenceLines (i + 1) rest

/-- Translation of `formatAcademicModule` of `compoundService.ts`: title
heading, optional abstract/keywords block, the non-empty sections in
declaration order with their display titles, and a numbered reference list. -/
def formatAcademicModule (m : AcademicModule) : String :=
  let base := "# " ++ m.title ++ "\n\n"
  let abstractBlock :=
    if m.abstract = "" then ""
    else "**Abstract:** " ++ m.abstract ++ "\n\n" ++
         "**Keywords:** " ++ String.intercalate ", " m.keywords ++ "\n\n" ++
         "---\n\n"
  let sections :=
    sectionBlock "I. Introduction" m.introduction ++
    sectionBlock "II. Theoretical Foundation & Literature Review" m.literature ++
    sectionBlock "III. Methodology & Analysis" m.methodology ++
    sectionBlock "IV. Detailed Discussion" m.content ++
    sectionBlock "V. Practical Implementation" m.examples ++
    (match m.exercises with
     | none => ""
     | some t => sectionBlock "VI. Research Exercises" t) ++
    sectionBlock "VII. Conclusion & Key Takeaways" m.conclusion
  let refs :=
    if m.references = [] then ""
    else "## References\n\n" ++ referenceLines 0 m.references
  base ++ abstractBlock ++ sections ++ refs

/-- Final step of `generateResearchModule` (`compoundService.ts` lines
228-239): format the parsed academic module, derive the word count from the
formatted content, and build the completed `BookModule` record.  `newId`
stands for the `generateId()` result and `academicModule` for the module
parsed out of the generation response. -/
def mkResearchBookModule (newId : String) (roadmapModule : RoadmapModule)
    (academicModule : AcademicModule) : BookModule :=
  let formattedContent := formatAcademicModule academicModule
  let wordCount := countWords formattedContent
  { id := newId
    roadmapModuleId := roadmapModule.id
    title := roadmapModule.title
    content := formattedContent
    wordCount := wordCount
    status := .completed }

/-- C3: for every Module Result built by `generateResearchModule`, the
`wordCount` field equals the number of whitespace-delimited non-empty tokens
of the `content` field. -/
theorem generated_module_wordCount_matches_content
    (newId : String) (roadmapModule : RoadmapModule)
    (academicModule : AcademicModule) :
    (mkResearchBookModule newId roadmapModule academicModule).wordCount =
      countWords (mkResearchBookModule newId roadmapModule academicModule).content := rfl

/-- Candidate JSON text match of `parseRoadmapResponse`: the cleaning
replaces drop the code-fence markers (which contain no braces), everything
before the first brace and everything after the last one, and
`cleaned.match(/\{[\s\S]*\}/)` then yields the span from the first `\x7b` to
the last `\x7d`, or `null` when no such span exists. -/
def braceSpan (s : String) : Option String :=
  match s.data.dropWhile (fun c => c ≠ '\x7b') with
  | [] => none
  | l =>
    match l.reverse.dropWhile (fun c => c ≠ '\x7d') with
    | [] => none
    | r => some (String.mk r.reverse)

/-- Display conversion used by the template literal in the default objective
of `parseRoadmapResponse` (an absent title interpolates as the string
undefined, as in JavaScript). -/
def jsDisplay : Option Json → String
  | none => "undefined"
  | some .null => "null"
  | some (.bool b) => if b then "true" else "false"
  | some (.num n) => toString n
  | some (.str s) => s
  | some (.arr _) => ""
  | some (.obj _) => "[object Object]"

/-- Per-module normalization step of `parseRoadmapResponse` (the
`roadmap.modules.map` callback): a stable sequential id, a trimmed title
with a default, the objectives array kept verbatim when it is an array and
replaced by a one-element default otherwise, and a default estimated time.
Calling `trim` on a non-string title throws a TypeError, which propagates
out of the parser as a failure. -/
def parseRoadmapModule (index : Nat) (m : Json) : Except String RoadmapModule :=
  match m.getField "title" with
  | some (.num _) => .error "TypeError: module.title.trim is not a function"
  | some (.bool _) => .error "TypeError: module.title.trim is not a function"
  | some (.arr _) => .error "TypeError: module.title.trim is not a function"
  | some (.obj _) => .error "TypeError: module.title.trim is not a function"
  | titleField =>
    let title :=
      match titleField with
      | some (.str s) =>
        if jsTrim s = "" then "Module " ++ toString (index + 1) else jsTrim s
      | _ => "Module " ++ toString (index + 1)
    let objectives :=
      match m.getField "objectives" with
      | some (.arr xs) => xs
      | _ => [Json.str ("Understand " ++ jsDisplay (m.getField "title"))]
    let estimatedTime :=
      match m.getField "estimatedTime" with
      | some v => if v.truthy then v else Json.str "3-4 hours"
      | none => Json.str "3-4 hours"
    .ok { id := "module_" ++ toString (index + 1)
          title := title
          objectives := objectives
          estimatedTime := estimatedTime
          order := index + 1 }

/-- Indexed traversal of the modules array of `parseRoadmapResponse`
(`roadmap.modules.map((module, index) => ...)`), with the first thrown
TypeError aborting the whole parse. -/
def parseRoadmapModules : Nat → List Json → Except String (List RoadmapModule)
  | _, [] => .ok []
  | i, m :: rest =>
    match parseRoadmapModule i m with
    | .error e => .error e
    | .ok rm =>
      match parseRoadmapModules (i + 1) rest with
      | .error e => .error e
      | .ok rms => .ok (rm :: rms)

/-- Default for `roadmap.estimatedReadingTime || ...` in
`parseRoadmapResponse`. -/
def readingTimeOf (root : Json) (n : Nat) : Json :=
  let fallback := Json.str (toString (n * 3) ++ "-" ++ toString (n * 4) ++ " hours")
  match root.getField "estimatedReadingTime" with
  | some v => if v.truthy then v else fallback
  | none => fallback

/-- Default for `roadmap.difficultyLevel || session.complexityLevel ||
'advanced'` in `parseRoadmapResponse`. -/
def difficultyOf (root : Json) (session : BookSession) : Json :=
  match root.getField "difficultyLevel" with
  | some v =>
    if v.truthy then v
    else if session.complexityLevel ≠ "" then Json.str session.complexityLevel
    else Json.str "advanced"
  | none =>
    if session.complexityLevel ≠ "" then Json.str session.complexityLevel
    else Json.str "advanced"

/-- Modules-array check and roadmap construction of `parseRoadmapResponse`:
the `!roadmap.modules || !Array.isArray(roadmap.modules)` guard throws when
the parsed value has no modules array, and otherwise the mapped modules,
`totalModules` and the defaulted display fields are assembled. -/
def roadmapFromRoot (root : Json) (session : BookSession) :
    Except String BookRoadmap :=
  match root.getField "modules" with
  | some (.arr rawModules) =>
    match parseRoadmapModules 0 rawModules with
    | .error e => .error e
    | .ok modules =>
      .ok { modules := modules
            totalModules := modules.length
            estimatedReadingTime := readingTimeOf root modules.length
            difficultyLevel := difficultyOf root session }
  | _ => .error "Invalid roadmap: missing modules"

/-- Translation of `parseRoadmapResponse` of `compoundService.ts` (lines
589-617).  The JSON.parse builtin is abstracted as the `parse` argument; a
parse failure (`none`) models the SyntaxError JSON.parse throws, which the
source does not catch and which therefore surfaces to the caller exactly
like the explicit throws. -/
def parseRoadmapResponse (parse : String → Option Json) (response : String)
    (session : BookSession) : Except String BookRoadmap :=
  match braceSpan response with
  | none => .error "Invalid roadmap format"
  | some candidate =>
    match parse candidate with
    | none => .error "SyntaxError: Unexpected token in JSON"
    | some root => roadmapFromRoot root session

/-- The expected structured shape is absent from the model response: no
brace-delimited candidate, or the candidate does not parse as JSON, or the
parsed value has no modules array. -/
def expectedShapeAbsent (parse : String → Option Json) (response : String) : Prop :=
  braceSpan response = none ∨
  (∃ c, braceSpan response = some c ∧ parse c = none) ∨
  (∃ c root, braceSpan response = some c ∧ parse c = some root ∧
    ∀ ms, root.getField "modules" ≠ some (Json.arr ms))

/-- C5: whenever the expected structured shape (a JSON object containing a
modules array) is absent from the model response, `parseRoadmapResponse`
fails with a malformed-response error, returned directly to the caller —
there is no retry construct at this layer. -/
theorem roadmap_malformed_response_fails (parse : String → Option Json)
    (response : String) (session : BookSession)
    (h : expectedShapeAbsent parse response) :
    ∃ e, parseRoadmapResponse parse response session = .error e := by
  rcases h with hb | ⟨c, hb, hp⟩ | ⟨c, root, hb, hp, hm⟩
  · exact ⟨"Invalid roadmap format", by simp [parseRoadmapResponse, hb]⟩
  · exact ⟨"SyntaxError: Unexpected token in JSON", by simp [parseRoadmapResponse, hb, hp]⟩
  · refine ⟨"Invalid roadmap: missing modules", ?_⟩
    have hred : parseRoadmapResponse parse response session = roadmapFromRoot root session := by
      simp [parseRoadmapResponse, hb, hp]
    rw [hred]
    unfold roadmapFromRoot
    cases hmod : root.getField "modules" with
    | none => rfl
    | some v =>
      cases v with
      | arr ms => exact absurd hmod (hm ms)
      | null => rfl
      | bool b => rfl
      | num n => rfl
      | str s => rfl
      | obj fields => rfl

/-- Session value used by the concrete evaluations below. -/
def sampleSession : BookSession :=
  { goal := "Learn Lean"
    targetAudience := ""
    complexityLevel := "advanced"
    reasoning := ""
    includeExamples := true
    includePracticalExercises := false }

/-- Witness input: a parse oracle that rejects everything. -/
def rejectingParse : String → Option Json := fun _ => none

/-- C5 witness: a response with no brace-delimited JSON candidate is
rejected with an error. -/
theorem roadmap_malformed_response_fails_witness :
    expectedShapeAbsent rejectingParse "no json here" ∧
      ∃ e, parseRoadmapResponse rejectingParse "no json here" sampleSession = .error e :=
  ⟨Or.inl rfl,
   roadmap_malformed_response_fails rejectingParse "no json here" sampleSession (Or.inl rfl)⟩

/-- Helper: a string append with a non-empty left part is non-empty. -/
theorem append_ne_empty_left (s t : String) (h : s ≠ "") : s ++ t ≠ "" := by
  rw [String.congr_append]
  intro he
  have hdata : s.data ++ t.data = [] := congrArg String.data he
  rcases List.append_eq_nil.mp hdata with ⟨h1, h2⟩
  apply h
  cases s with | mk ls =>
  simp only at h1
  rw [h1]

/-- Helper: a string append with a non-empty right part is non-empty. -/
theorem append_ne_empty_right (s t : String) (h : t ≠ "") : s ++ t ≠ "" := by
  rw [String.congr_append]
  intro he
  have hdata : s.data ++ t.data = [] := congrArg String.data he
  rcases List.append_eq_nil.mp hdata with ⟨h1, h2⟩
  apply h
  cases t with | mk lt =>
  simp only at h2
  rw [h2]

/-- Shared shape facts about one normalized roadmap module: sequential id,
non-empty title, and an empty objectives list only when the response module
carried an explicitly empty objectives array. -/
theorem parseRoadmapModule_ok (i : Nat) (m : Json) (rm : RoadmapModule)
    (h : parseRoadmapModule i m = .ok rm) :
    rm.id = "module_" ++ toString (i + 1) ∧ rm.title ≠ "" ∧
      (rm.objectives = [] → m.getField "objectives" = some (Json.arr [])) := by
  unfold parseRoadmapModule at h
  split at h
  · exact absurd h (by simp)
  · exact absurd h (by simp)
  · exact absurd h (by simp)
  · exact absurd h (by simp)
  · injection h with h2
    subst h2
    refine ⟨rfl, ?_, ?_⟩
    · show (match (motive := Option Json → String) _ with
        | some (.str s) => if jsTrim s = "" then "Module " ++ toString (i + 1) else jsTrim s
        | _ => "Module " ++ toString (i + 1)) ≠ ""
      split
      · split
        · exact append_ne_empty_left _ _ (by decide)
        · next hne => exact hne
      · exact append_ne_empty_left _ _ (by decide)
    · show (match m.getField "objectives" with
        | some (.arr xs) => xs
        | _ => [Json.str ("Understand " ++ jsDisplay (m.getField "title"))]) = [] →
        m.getField "objectives" = some (Json.arr [])
      split
      · next xs heq => intro hxs; rw [heq, hxs]
      · intro hcon; exact absurd hcon (by simp)

/-- Shared shape facts about the whole normalized module list, with the
running index threaded through the traversal. -/
theorem parseRoadmapModules_ok :
    ∀ (k : Nat) (ms : List Json) (l : List RoadmapModule),
    parseRoadmapModules k ms = .ok l →
    l.length = ms.length ∧
    ∀ i (hi : i < l.length) (hmi : i < ms.length),
      (l.get ⟨i, hi⟩).id = "module_" ++ toString (k + i + 1) ∧
      (l.get ⟨i, hi⟩).title ≠ "" ∧
      ((l.get ⟨i, hi⟩).objectives = [] →
        (ms.get ⟨i, hmi⟩).getField "objectives" = some (Json.arr []))
  | k, [], l, h => by
    unfold parseRoadmapModules at h
    injection h with h2
    subst h2
    exact ⟨rfl, fun i hi hmi => absurd hi (by simp)⟩
  | k, m :: rest, l, h => by
    unfold parseRoadmapModules at h
    split at h
    · exact absurd h (by simp)
    · next rm heq1 =>
      split at h
      · exact absurd h (by simp)
      · next rms heq2 =>
        injection h with h2
        subst h2
        obtain ⟨hlen, hprops⟩ := parseRoadmapModules_ok (k + 1) rest rms heq2
        obtain ⟨hid, htitle, hobj⟩ := parseRoadmapModule_ok k m rm heq1
        refine ⟨by simp [hlen], ?_⟩
        intro i hi hmi
        cases i with
        | zero =>
          refine ⟨?_, htitle, hobj⟩
          show rm.id = "module_" ++ toString (k + 0 + 1)
          have heqn : k + 0 + 1 = k + 1 := by omega
          rw [heqn]
          exact hid
        | succ j =>
          have hj : j < rms.length := by simp at hi; omega
          have hmj : j < rest.length := by simp at hmi; omega
          obtain ⟨hid2, htitle2, hobj2⟩ := hprops j hj hmj
          refine ⟨?_, htitle2, hobj2⟩
          show (rms.get ⟨j, hj⟩).id = "module_" ++ toString (k + (j + 1) + 1)
          have heqn : k + (j + 1) + 1 = k + 1 + j + 1 := by omega
          rw [heqn]
          exact hid2

/-- C8 (amended): every Roadmap Module of a successfully created Roadmap has
a stable sequential id and a non-empty title, and the totalModules field
equals the length of the module list; the learning-objectives list, however,
can only be empty when the model response explicitly supplied an empty
objectives array for that module (a missing or non-array objectives field is
replaced by a one-element default). -/
theorem roadmap_modules_wellformed (parse : String → Option Json)
    (response : String) (session : BookSession) (r : BookRoadmap)
    (h : parseRoadmapResponse parse response session = .ok r) :
    r.totalModules = r.modules.length ∧
    (∀ i (hi : i < r.modules.length),
      (r.modules.get ⟨i, hi⟩).id = "module_" ++ toString (i + 1) ∧
      (r.modules.get ⟨i, hi⟩).title ≠ "") ∧
    ∃ rawModules : List Json,
      parseRoadmapModules 0 rawModules = .ok r.modules ∧
      rawModules.length = r.modules.length ∧
      ∀ i (hi : i < r.modules.length) (hraw : i < rawModules.length),
        (r.modules.get ⟨i, hi⟩).objectives = [] →
          (rawModules.get ⟨i, hraw⟩).getField "objectives" = some (Json.arr []) := by
  unfold parseRoadmapResponse at h
  split at h
  · exact absurd h (by simp)
  · split at h
    · exact absurd h (by simp)
    · next root =>
      unfold roadmapFromRoot at h
      split at h
      · next rawModules hfield =>
        split at h
        · exact absurd h (by simp)
        · next modules heq =>
          injection h with h2
          subst h2
          obtain ⟨hlen, hprops⟩ := parseRoadmapModules_ok 0 rawModules modules heq
          refine ⟨rfl, ?_, rawModules, heq, hlen.symm, ?_⟩
          · intro i hi
            have hi2 : i < modules.length := hi
            have hmi : i < rawModules.length := by omega
            obtain ⟨hid, htitle, _⟩ := hprops i hi2 hmi
            refine ⟨?_, htitle⟩
            rw [hid]
            have heqn : 0 + i + 1 = i + 1 := by omega
            rw [heqn]
          · intro i hi hraw hobj
            obtain ⟨_, _, ho⟩ := hprops i hi hraw
            exact ho hobj
      · exact absurd h (by simp)

/-- Counterexample input for the objectives clause: a well-formed response
whose single module carries an explicitly empty objectives array. -/
def emptyObjectivesResponse : String := "\x7b\"modules\":[\x7b\"title\":\"T\",\"objectives\":[]\x7d]\x7d"

/-- The JSON value the JSON.parse builtin yields on
`emptyObjectivesResponse`. -/
def emptyObjectivesJson : Json :=
  .obj [("modules", .arr [.obj [("title", .str "T"), ("objectives", .arr [])]])]

/-- Parse oracle for the counterexample run, mapping the candidate text to
its JSON value. -/
def emptyObjectivesParse : String → Option Json :=
  fun s => if s = emptyObjectivesResponse then some emptyObjectivesJson else none

/-- C8 counterexample: `parseRoadmapResponse` succeeds on a response whose
module has an explicitly empty objectives array, and the resulting Roadmap
Module keeps the empty learning-objectives list — refuting the claim that
every module of a successfully created Roadmap has a non-empty objectives
list. -/
theorem roadmap_empty_objectives_cex :
    ∃ r, parseRoadmapResponse emptyObjectivesParse emptyObjectivesResponse
        sampleSession = .ok r ∧
      r.modules.map (fun m => m.objectives) = [[]] :=
  ⟨_, rfl, rfl⟩

/-- The Roadmap value `parseRoadmapResponse` produces on
`emptyObjectivesResponse`. -/
def emptyObjectivesRoadmap : BookRoadmap :=
  { modules := [{ id := "module_1", title := "T", objectives := [],
                  estimatedTime := Json.str "3-4 hours", order := 1 }]
    totalModules := 1
    estimatedReadingTime := Json.str "3-4 hours"
    difficultyLevel := Json.str "advanced" }

/-- C8 witness: the shape facts evaluated on a concrete successful parse. -/
theorem roadmap_modules_wellformed_witness :
    parseRoadmapResponse emptyObjectivesParse emptyObjectivesResponse sampleSession =
      .ok emptyObjectivesRoadmap ∧
    (emptyObjectivesRoadmap.totalModules = emptyObjectivesRoadmap.modules.length ∧
     (∀ i (hi : i < emptyObjectivesRoadmap.modules.length),
       (emptyObjectivesRoadmap.modules.get ⟨i, hi⟩).id = "module_" ++ toString (i + 1) ∧
       (emptyObjectivesRoadmap.modules.get ⟨i, hi⟩).title ≠ "") ∧
     ∃ rawModules : List Json,
       parseRoadmapModules 0 rawModules = .ok emptyObjectivesRoadmap.modules ∧
       rawModules.length = emptyObjectivesRoadmap.modules.length ∧
       ∀ i (hi : i < emptyObjectivesRoadmap.modules.length) (hraw : i < rawModules.length),
         (emptyObjectivesRoadmap.modules.get ⟨i, hi⟩).objectives = [] →
           (rawModules.get ⟨i, hraw⟩).getField "objectives" = some (Json.arr [])) :=
  ⟨rfl, roadmap_modules_wellformed emptyObjectivesParse emptyObjectivesResponse
    sampleSession emptyObjectivesRoadmap rfl⟩

/-- Boolean prefix test over character lists, modelling
`trimmedLine.startsWith('data: ')`. -/
def startsWithChars : List Char → List Char → Bool
  | [], _ => true
  | _ :: _, [] => false
  | p :: ps, c :: cs => p = c && startsWithChars ps cs

/-- Extraction `data?.choices?.[0]?.delta?.content || ''` of
`handleStreamResponse`: a missing step of the optional chain, or a
non-string content, contributes the empty string (the OpenAI delta content
is string-typed on the wire). -/
def extractDeltaContent (parse : String → Option Json) (jsonStr : String) : String :=
  match parse jsonStr with
  | none => ""
  | some data =>
    match data.getField "choices" with
    | some (.arr (c :: _)) =>
      match c.getField "delta" with
      | some d =>
        match d.getField "content" with
        | some (.str s) => s
        | _ => ""
      | none => ""
    | _ => ""

/-- One iteration of the line loop of `handleStreamResponse`
(`compoundService.ts` lines 504-520): trim the line, require the SSE
`data: ` marker, skip the `[DONE]` sentinel, parse the JSON payload (parse
errors are ignored) and take the delta content. -/
def processStreamLine (parse : String → Option Json) (line : String) : String :=
  let trimmedLine := jsTrim line
  if startsWithChars ("data: ".data) trimmedLine.data then
    let jsonStr := String.mk (trimmedLine.data.drop 6)
    if jsonStr = "[DONE]" then "" else extractDeltaContent parse jsonStr
  else ""

/-- Newline split of the accumulated decoder output, keeping empty pieces —
the `buffer.split('\n')` of the stream loop, applied to the whole decoded
stream.  The result always has at least one element; the last element is
the final buffer remainder, which the loop never processes. -/
def splitNewlines : List Char → List (List Char)
  | [] => [[]]
  | c :: cs =>
    let rest := splitNewlines cs
    if c = '\n' then [] :: rest
    else
      match rest with
      | [] => [[c]]
      | r :: rs => (c :: r) :: rs

/-- The full content accumulated by the stream loop of
`handleStreamResponse`: every newline-terminated line of the decoded stream
is processed in order, and the extracted delta texts are concatenated.
`streamText` is the concatenation of all decoded chunks. -/
def streamedContent (parse : String → Option Json) (streamText : String) : String :=
  String.join (((splitNewlines streamText.data).dropLast).map
    (fun l => processStreamLine parse (String.mk l)))

/-- Translation of `handleStreamResponse` of `compoundService.ts` (lines
490-524): accumulate the streamed delta texts and throw `No content
generated` when nothing was accumulated. -/
def handleStreamResponse (parse : String → Option Json) (streamText : String) :
    Except String String :=
  let fullContent := streamedContent parse streamText
  if fullContent = "" then .error "No content generated" else .ok fullContent

/-- C9: a stream that completes without yielding any content makes
`handleStreamResponse` fail with `No content generated` instead of
returning an empty success, and every successful streamed result is a
non-empty string. -/
theorem stream_empty_fails_success_nonempty (parse : String → Option Json)
    (streamText : String) :
    (streamedContent parse streamText = "" →
      handleStreamResponse parse streamText = .error "No content generated") ∧
    ∀ s, handleStreamResponse parse streamText = .ok s → s ≠ "" := by
  constructor
  · intro hempty
    unfold handleStreamResponse
    rw [hempty]
    rfl
  · intro s hok
    unfold handleStreamResponse at hok
    simp only [] at hok
    by_cases hc : streamedContent parse streamText = ""
    · rw [if_pos hc] at hok
      exact absurd hok (by simp)
    · rw [if_neg hc] at hok
      injection hok with h2
      subst h2
      exact hc

/-- Stream input for the successful witness run: one SSE data line carrying
a one-word delta. -/
def helloStreamText : String := "data: \x7b\"v\":1\x7d\n"

/-- The JSON value of the witness delta payload. -/
def helloDeltaJson : Json :=
  .obj [("choices", .arr [.obj [("delta", .obj [("content", .str "hello")])]])]

/-- Parse oracle for the witness stream run. -/
def helloStreamParse : String → Option Json :=
  fun s => if s = "\x7b\"v\":1\x7d" then some helloDeltaJson else none

/-- C9 witness: an all-rejected stream errors with `No content generated`,
and a concrete successful stream yields the non-empty accumulated text. -/
theorem stream_empty_fails_success_nonempty_witness :
    handleStreamResponse rejectingParse "x\n" = .error "No content generated" ∧
      ("hello" : String) ≠ "" :=
  ⟨(stream_empty_fails_success_nonempty rejectingParse "x\n").1 rfl,
   (stream_empty_fails_success_nonempty helloStreamParse helloStreamText).2 "hello" rfl⟩

/-- The API settings record (`APISettings` in `types`), restricted to the
fields the service logic reads. -/
structure APISettings where
  googleApiKey : String
  mistralApiKey : String
  zhipuApiKey : String
  groqApiKey : String
  selectedProvider : String
  selectedModel : String
deriving DecidableEq, Repr

/-- State of the `activeRequests` machinery of `CompoundAIService`: a
counter for fresh `generateId()` results and abort-controller identities,
the `Map<string, AbortController>` as an association list in insertion
order, and the set of controllers whose `abort()` has been called. -/
structure ServiceRequestState where
  nextFresh : Nat
  activeRequests : List (String × Nat)
  aborted : List Nat
deriving DecidableEq, Repr

/-- The opaque id `generateId()` yields for the n-th fresh draw; distinct
from every book id (book ids are separate `generateId()` draws). -/
def freshRequestKey (n : Nat) : String := "generated_" ++ toString n

/-- JavaScript `Map.prototype.set`: update the existing entry in place or
append a new one. -/
def setRequest (k : String) (c : Nat) : List (String × Nat) → List (String × Nat)
  | [] => [(k, c)]
  | (k2, c2) :: rest => if k2 = k then (k, c) :: rest else (k2, c2) :: setRequest k c rest

/-- JavaScript `Map.prototype.get` as an association lookup. -/
def lookupRequest (k : String) : List (String × Nat) → Option Nat
  | [] => none
  | (k2, c) :: rest => if k2 = k then some c else lookupRequest k rest

/-- JavaScript `Map.prototype.delete` of a key (all entries with the key
are removed; the map never holds duplicates). -/
def deleteRequest (k : String) (l : List (String × Nat)) : List (String × Nat) :=
  l.filter (fun p => p.1 ≠ k)

/-- Request registration of `generateWithCompound` (`compoundService.ts`
lines 425-439): `requestId = bookId || generateId()`, a fresh
AbortController, and `activeRequests.set(requestId, abortController)`.
Returns the new state and the controller identity of this call. -/
def beginCompoundRequest (bookId : Option String) (s : ServiceRequestState) :
    ServiceRequestState × Nat :=
  let abortController := s.nextFresh
  let requestId :=
    match bookId with
    | some b => b
    | none => freshRequestKey s.nextFresh
  ({ nextFresh := s.nextFresh + 1
     activeRequests := setRequest requestId abortController s.activeRequests
     aborted := s.aborted },
   abortController)

/-- A module-generation call: `generateAcademicModule` (and likewise
`researchTopic`, `verifyCodeExamples` and `generateResearchSummary`) invokes
`generateWithCompound(prompt)` without a `bookId` argument, so the request
is registered under a fresh `generateId()` key, not under the owning
project id.  Only `buildAcademicRoadmap` passes `bookId`. -/
def startModuleGenerationCall (s : ServiceRequestState) : ServiceRequestState × Nat :=
  beginCompoundRequest none s

/-- Branch of `cancelActiveRequests` taken when a book id is supplied:
abort and delete the entry at exactly that key, if any. -/
def cancelRequestsForBook (b : String) (s : ServiceRequestState) :
    ServiceRequestState :=
  match lookupRequest b s.activeRequests with
  | some controller =>
    { s with activeRequests := deleteRequest b s.activeRequests
             aborted := controller :: s.aborted }
  | none => s

/-- Branch of `cancelActiveRequests` taken with no book id: abort every
registered controller and clear the map. -/
def cancelAllRequests (s : ServiceRequestState) : ServiceRequestState :=
  { s with aborted := s.activeRequests.map (fun p => p.2) ++ s.aborted
           activeRequests := [] }

/-- Translation of `cancelActiveRequests` of `compoundService.ts` (lines
622-633). -/
def cancelActiveRequests (bookId : Option String) (s : ServiceRequestState) :
    ServiceRequestState :=
  match bookId with
  | some b => cancelRequestsForBook b s
  | none => cancelAllRequests s

/-- Empty service request state. -/
def emptyRequestState : ServiceRequestState :=
  { nextFresh := 0, activeRequests := [], aborted := [] }

/-- C4 counterexample: a module-generation call issued for a project (which
the source registers under a fresh `generateId()` key, not under the
project id) stays in flight and un-aborted after
`cancelActiveRequests(projectId)` — refuting both that every network call
is keyed by the owning project id and that a project-scoped cancel aborts
every in-flight call of that project. -/
theorem cancel_by_project_misses_module_call :
    (startModuleGenerationCall emptyRequestState).2 ∉
      (cancelActiveRequests (some "book_42")
        (startModuleGenerationCall emptyRequestState).1).aborted ∧
    lookupRequest (freshRequestKey 0)
      (cancelActiveRequests (some "book_42")
        (startModuleGenerationCall emptyRequestState).1).activeRequests =
      some (startModuleGenerationCall emptyRequestState).2 := by
  decide

/-- C4 (amended): `cancelActiveRequests(projectId)` aborts and removes the
call registered under exactly the given key — which, in the source, is only
the roadmap-generation call, the one call that passes the project id as its
request key — and `cancelActiveRequests()` with no id aborts every
registered call and clears the map. -/
theorem cancelActiveRequests_by_key (s : ServiceRequestState) :
    (∀ b c, lookupRequest b s.activeRequests = some c →
      c ∈ (cancelActiveRequests (some b) s).aborted ∧
      lookupRequest b (cancelActiveRequests (some b) s).activeRequests = none) ∧
    (∀ p, p ∈ s.activeRequests →
      p.2 ∈ (cancelActiveRequests none s).aborted ∧
      (cancelActiveRequests none s).activeRequests = []) := by
  constructor
  · intro b c hlk
    have hred : cancelActiveRequests (some b) s =
        { s with activeRequests := deleteRequest b s.activeRequests
                 aborted := c :: s.aborted } := by
      show cancelRequestsForBook b s = _
      unfold cancelRequestsForBook
      rw [hlk]
    rw [hred]
    refine ⟨List.mem_cons_self _ _, ?_⟩
    show lookupRequest b (deleteRequest b s.activeRequests) = none
    unfold deleteRequest
    induction s.activeRequests with
    | nil => rfl
    | cons p rest ih =>
      by_cases hp : p.1 = b
      · simpa [lookupRequest, hp] using ih
      · simp only [List.filter]
        rw [show (decide (p.1 ≠ b)) = true by simp [hp]]
        cases p with | mk k v =>
        simp only at hp
        unfold lookupRequest
        rw [if_neg hp]
        exact ih
  · intro p hp
    have hred : cancelActiveRequests none s = cancelAllRequests s := rfl
    rw [hred]
    exact ⟨List.mem_append_left _ (List.mem_map_of_mem _ hp), rfl⟩

/-- C4 amended witness: canceling with the roadmap call's key aborts that
call, evaluated on a concrete one-call state. -/
theorem cancelActiveRequests_by_key_witness :
    0 ∈ (cancelActiveRequests (some "book_42")
      (beginCompoundRequest (some "book_42") emptyRequestState).1).aborted ∧
    lookupRequest "book_42"
      (cancelActiveRequests (some "book_42")
        (beginCompoundRequest (some "book_42") emptyRequestState).1).activeRequests = none :=
  ((cancelActiveRequests_by_key
      (beginCompoundRequest (some "book_42") emptyRequestState).1).1
    "book_42" 0 (by decide))

/-- The service instance: an identity (object identity of the single
`CompoundAIService` object) plus its mutable `settings` field. -/
structure CompoundAIService where
  instanceId : Nat
  settings : APISettings
deriving DecidableEq, Repr

/-- Translation of `getCompoundService` of `compoundService.ts` (lines
636-646) over the module-level `compoundServiceInstance` variable: create
the singleton on first use, otherwise mutate its settings in place via
`updateSettings`; either way return it.  The pair is (returned instance,
new value of the module-level variable). -/
def getCompoundService (settings : APISettings)
    (compoundServiceInstance : Option CompoundAIService) :
    CompoundAIService × Option CompoundAIService :=
  match compoundServiceInstance with
  | none =>
    let created : CompoundAIService := { instanceId := 0, settings := settings }
    (created, some created)
  | some inst =>
    let updated : CompoundAIService := { inst with settings := settings }
    (updated, some updated)

/-- C10: `getCompoundService` always returns the one stored instance (the
returned object is exactly what the module-level variable holds afterwards,
and its identity never changes across calls), and after each call the
instance's settings equal that call's settings argument — last write wins. -/
theorem compound_service_singleton (settings : APISettings)
    (compoundServiceInstance : Option CompoundAIService) :
    (getCompoundService settings compoundServiceInstance).1.settings = settings ∧
    (getCompoundService settings compoundServiceInstance).2 =
      some (getCompoundService settings compoundServiceInstance).1 ∧
    ∀ inst, compoundServiceInstance = some inst →
      (getCompoundService settings compoundServiceInstance).1.instanceId =
        inst.instanceId := by
  cases compoundServiceInstance with
  | none => exact ⟨rfl, rfl, fun inst h => by cases h⟩
  | some inst0 =>
    refine ⟨rfl, rfl, fun inst h => ?_⟩
    cases h
    rfl

/-- Settings values for the concrete singleton run. -/
def settingsA : APISettings :=
  { googleApiKey := "", mistralApiKey := "", zhipuApiKey := ""
    groqApiKey := "gk", selectedProvider := "groq", selectedModel := "groq/compound" }

/-- A second settings value, differing in the selected model. -/
def settingsB : APISettings :=
  { settingsA with selectedModel := "groq/compound-mini" }

/-- C10 witness: updating an existing instance keeps its identity and
adopts the new settings. -/
theorem compound_service_singleton_witness :
    (getCompoundService settingsB (some { instanceId := 7, settings := settingsA })).1.settings
      = settingsB ∧
    (getCompoundService settingsB (some { instanceId := 7, settings := settingsA })).1.instanceId
      = 7 :=
  ⟨(compound_service_singleton settingsB (some { instanceId := 7, settings := settingsA })).1,
   (compound_service_singleton settingsB (some { instanceId := 7, settings := settingsA })).2.2
     { instanceId := 7, settings := settingsA } rfl⟩

/-- Boolean substring test over character lists, modelling
`title.includes('Module')`. -/
def hasSubChars (p : List Char) : List Char → Bool
  | [] => startsWithChars p []
  | c :: cs => startsWithChars p (c :: cs) || hasSubChars p cs

/-- The fresh Project record `handleCreateBookRoadmap` appends (App.tsx,
`newBook`): planning status, zero progress, no modules, no roadmap, the
goal as title (truncated past 100 characters). -/
def newBookFor (bookId : String) (session : BookSession) : BookProject :=
  { id := bookId
    title :=
      if session.goal.length > 100 then String.mk (session.goal.data.take 100) ++ "..."
      else session.goal
    goal := session.goal
    status := .planning
    progress := 0
    modules := []
    roadmap := none
    finalBook := none
    error := none }

/-- The title chosen on roadmap success (App.tsx):
`roadmap.modules[0]?.title.includes('Module') ? session.goal :
roadmap.modules[0]?.title || session.goal`. -/
def successTitle (roadmap : BookRoadmap) (session : BookSession) : String :=
  match roadmap.modules with
  | [] => session.goal
  | m0 :: _ =>
    if hasSubChars ("Module".data) m0.title.data then session.goal
    else if m0.title = "" then session.goal else m0.title

/-- The blocking alert text of the roadmap failure branch of
`handleCreateBookRoadmap`. -/
def failAlertText (msg : String) : String :=
  "Failed to generate roadmap: " ++ msg ++
    "\n\nPlease check your API key and internet connection."

/-- The blocking alert text of the storage-failure branch when appending
the new book. -/
def storageFailAlertText : String :=
  "Could not save new book due to storage issues. Please export data and clear old data in settings."

/-- Application state touched by the roadmap handler: the React book list
and the alerts the user has been shown (each `alert(...)` call is a
blocking browser dialog). -/
structure AppState where
  books : List BookProject
  alerts : List String

/-- Outcome application of `handleCreateBookRoadmap` (App.tsx lines
552-575): on success the book gets the roadmap, `roadmap_completed` status,
progress 10 and the derived title; on failure the book gets `error` status
with the causing message stored on it, and the blocking failure alert is
shown. -/
def applyRoadmapResult (bookId : String) (session : BookSession)
    (result : Except String BookRoadmap) (st : AppState) : AppState :=
  match result with
  | .ok roadmap =>
    { st with books := st.books.map (fun b =>
        if b.id = bookId then
          { b with roadmap := some roadmap, status := .roadmap_completed,
                   progress := 10, title := successTitle roadmap session }
        else b) }
  | .error msg =>
    { books := st.books.map (fun b =>
        if b.id = bookId then { b with status := .error, error := some msg } else b)
      alerts := st.alerts ++ [failAlertText msg] }

/-- Translation of the body of `handleCreateBookRoadmap` (App.tsx lines
511-576) past its input guards: append the fresh book (unless the storage
write throws, in which case the list is left unchanged and a storage alert
is shown), then apply the roadmap-generation outcome.  `result` is the
outcome of the awaited `bookService.generateRoadmap(session, bookId)`
call. -/
def handleCreateBookRoadmap (bookId : String) (session : BookSession)
    (storageOk : Bool) (result : Except String BookRoadmap) (st : AppState) :
    AppState :=
  let st1 :=
    if storageOk then { st with books := st.books ++ [newBookFor bookId session] }
    else { st with alerts := st.alerts ++ [storageFailAlertText] }
  applyRoadmapResult bookId session result st1

/-- C6: whenever roadmap creation fails, the handler stores `error` status
and the causing message on the Project and shows a blocking user-visible
alert. -/
theorem roadmap_failure_sets_error_and_alerts (bookId : String)
    (session : BookSession) (msg : String) (st : AppState) :
    (∃ b, b ∈ (handleCreateBookRoadmap bookId session true (.error msg) st).books ∧
      b.id = bookId ∧ b.status = .error ∧ b.error = some msg) ∧
    failAlertText msg ∈ (handleCreateBookRoadmap bookId session true (.error msg) st).alerts := by
  have hred : handleCreateBookRoadmap bookId session true (.error msg) st =
      { books := (st.books ++ [newBookFor bookId session]).map (fun b =>
          if b.id = bookId then { b with status := .error, error := some msg } else b)
        alerts := st.alerts ++ [failAlertText msg] } := rfl
  rw [hred]
  constructor
  · refine ⟨{ newBookFor bookId session with status := .error, error := some msg }, ?_, rfl, rfl, rfl⟩
    have hmem : newBookFor bookId session ∈ st.books ++ [newBookFor bookId session] :=
      List.mem_append_right _ (List.mem_singleton_self _)
    have himg := List.mem_map_of_mem
      (fun b => if b.id = bookId then { b with status := BookStatus.error, error := some msg } else b)
      hmem
    have hfb : (fun b => if b.id = bookId then
        { b with status := BookStatus.error, error := some msg } else b)
        (newBookFor bookId session) =
        { newBookFor bookId session with status := BookStatus.error, error := some msg } := by
      simp [newBookFor]
    rw [hfb] at himg
    exact himg
  · exact List.mem_append_right _ (List.mem_singleton_self _)

/-- Key removal on the local key-value store, modelling
`localStorage.removeItem(key)`. -/
def removeKey (k : String) (kv : List (String × String)) : List (String × String) :=
  kv.filter (fun p => p.1 ≠ k)

/-- Key lookup on the local key-value store, modelling
`localStorage.getItem(key)`. -/
def lookupKey (k : String) : List (String × String) → Option String
  | [] => none
  | (k2, v) :: rest => if k2 = k then some v else lookupKey k rest

/-- Application and storage state touched by `handleDeleteBook`: the React
book list, the persisted book collection (Modelled from the spec: the
Persisted Project/Settings store is a consumed full-collection get/set that
`storageUtils.saveBooks` writes — `storageUtils` itself is not under the
sources), the local key-value store, and shown alerts. -/
structure DeleteState where
  books : List BookProject
  persistedBooks : List BookProject
  kv : List (String × String)
  alerts : List String

/-- Translation of `handleDeleteBook` (App.tsx lines 643-665): after the
user confirms, the book is removed from the list, the updated list is
persisted, and the `checkpoint_<id>` and `pause_flag_<id>` keys are removed
from local storage. -/
def handleDeleteBook (confirmed : Bool) (id : String) (st : DeleteState) :
    DeleteState :=
  if confirmed then
    let updatedBooks := st.books.filter (fun b => b.id != id)
    { books := updatedBooks
      persistedBooks := updatedBooks
      kv := removeKey ("pause_flag_" ++ id) (removeKey ("checkpoint_" ++ id) st.kv)
      alerts := st.alerts }
  else st

/-- Helper: a key just removed is absent. -/
theorem lookupKey_removeKey_self (k : String) :
    ∀ kv, lookupKey k (removeKey k kv) = none := by
  intro kv
  induction kv with
  | nil => rfl
  | cons p rest ih =>
    cases p with | mk k2 v =>
    by_cases hk : k2 = k
    · simpa [removeKey, List.filter, hk] using ih
    · simp only [removeKey, List.filter] at ih ⊢
      rw [show (decide (k2 ≠ k)) = true by simp [hk]]
      unfold lookupKey
      rw [if_neg hk]
      exact ih

/-- Helper: removing some other key keeps an absent key absent. -/
theorem lookupKey_removeKey_mono (k j : String) :
    ∀ kv, lookupKey k kv = none → lookupKey k (removeKey j kv) = none := by
  intro kv
  induction kv with
  | nil => intro _; rfl
  | cons p rest ih =>
    cases p with | mk k2 v =>
    intro h
    unfold lookupKey at h
    by_cases hk : k2 = k
    · rw [if_pos hk] at h
      cases h
    · rw [if_neg hk] at h
      simp only [removeKey, List.filter]
      by_cases hj : k2 = j
      · rw [show (decide (k2 ≠ j)) = false by simp [hj]]
        exact ih h
      · rw [show (decide (k2 ≠ j)) = true by simp [hj]]
        unfold lookupKey
        rw [if_neg hk]
        exact ih h

/-- C7: confirmed deletion removes the Project from the in-memory and
persisted book lists and purges its durable Checkpoint
(`checkpoint_<projectId>`) and Pause Flag (`pause_flag_<projectId>`) from
local storage. -/
theorem delete_purges_book_and_storage (id : String) (st : DeleteState) :
    ((handleDeleteBook true id st).books.all (fun b => b.id != id)) = true ∧
    ((handleDeleteBook true id st).persistedBooks.all (fun b => b.id != id)) = true ∧
    lookupKey ("checkpoint_" ++ id) (handleDeleteBook true id st).kv = none ∧
    lookupKey ("pause_flag_" ++ id) (handleDeleteBook true id st).kv = none := by
  have hall : (st.books.filter (fun b => b.id != id)).all (fun b => b.id != id) = true := by
    rw [List.all_eq_true]
    intro b hb
    exact (List.mem_filter.mp hb).2
  refine ⟨hall, hall, ?_, ?_⟩
  · exact lookupKey_removeKey_mono _ _ _ (lookupKey_removeKey_self _ _)
  · exact lookupKey_removeKey_self _ _

/-- The generation-status enum of the status snapshot (`GenerationStatus`
in App.tsx). -/
inductive GenStatus where
  | idle : GenStatus
  | generating : GenStatus
  | completed : GenStatus
  | error : GenStatus
  | paused : GenStatus
  | waiting_retry : GenStatus
deriving DecidableEq, Repr

/-- The derived check `areAllModulesDone` (BookView.tsx lines 1475-1478 and
the completion-detection effect of App.tsx): a roadmap exists, the Module
Result count equals the roadmap module count, and every Module Result is
completed. -/
def areAllModulesDone (b : BookProject) : Bool :=
  match b.roadmap with
  | none => false
  | some r =>
    b.modules.length == r.modules.length &&
    b.modules.all (fun m => m.status == ModuleStatus.completed)

/-- The firing condition of the completion-detection effect (App.tsx lines
395-428): all modules done, the book still in `generating_content`, and the
status snapshot not in an active state. -/
def completionCondition (b : BookProject) (g : GenStatus) : Bool :=
  areAllModulesDone b && b.status == BookStatus.generating_content &&
  !(g == GenStatus.generating) && !(g == GenStatus.paused) &&
  !(g == GenStatus.waiting_retry)

/-- What one effect evaluation observes: the current book value and the
current generation-status snapshot (both are re-read on every status
update; the guard ref is the only state the effect itself owns during a
run). -/
structure EffectObs where
  book : BookProject
  gen : GenStatus

/-- One evaluation of the completion-detection effect, as a function of the
`hasTriggeredCompletion` ref: an early return when the ref is set,
otherwise fire (and set the ref) exactly when the condition holds.  The
result is (new ref value, fired this evaluation). -/
def completionEffectStep (flag : Bool) (o : EffectObs) : Bool × Bool :=
  if flag then (flag, false)
  else if completionCondition o.book o.gen then (true, true)
  else (flag, false)

/-- Number of firings of the `roadmap_completed`/progress-90 transition
over a whole run: the effect is re-evaluated once per observation, with the
ref threaded through (nothing resets the ref during a single run for one
project; it is reset only when the selected book changes). -/
def countCompletionFires (flag : Bool) : List EffectObs → Nat
  | [] => 0
  | o :: rest =>
    let r := completionEffectStep flag o
    (if r.2 then 1 else 0) + countCompletionFires r.1 rest

/-- Helper: once the guard ref is set the effect never fires again. -/
theorem countCompletionFires_flagged : ∀ obs, countCompletionFires true obs = 0 := by
  intro obs
  induction obs with
  | nil => rfl
  | cons o rest ih =>
    show (if (completionEffectStep true o).2 then 1 else 0) +
      countCompletionFires (completionEffectStep true o).1 rest = 0
    have hstep : completionEffectStep true o = (true, false) := rfl
    rw [hstep]
    simpa using ih

/-- C2: during a single generation run (the guard ref starts cleared and is
never reset within the run), the transition into the ready-to-assemble
marker fires at most once, however many times the detection condition is
re-evaluated. -/
theorem completion_transition_fires_at_most_once (obs : List EffectObs) :
    countCompletionFires false obs ≤ 1 := by
  induction obs with
  | nil => exact Nat.zero_le 1
  | cons o rest ih =>
    show (if (completionEffectStep false o).2 then 1 else 0) +
      countCompletionFires (completionEffectStep false o).1 rest ≤ 1
    by_cases hc : completionCondition o.book o.gen
    · have hstep : completionEffectStep false o = (true, true) := by
        unfold completionEffectStep
        rw [if_neg (by simp), if_pos hc]
      rw [hstep]
      simp [countCompletionFires_flagged rest]
    · have hstep : completionEffectStep false o = (false, false) := by
        unfold completionEffectStep
        rw [if_neg (by simp), if_neg hc]
      rw [hstep]
      simpa using ih

/-- The Roadmap module list of a Project (empty when no roadmap exists
yet). -/
def roadmapModulesOf (b : BookProject) : List RoadmapModule :=
  match b.roadmap with
  | none => []
  | some r => r.modules

/-- The roadmap-module back-references of the Project's Module Results. -/
def moduleResultIds (b : BookProject) : List String :=
  b.modules.map (fun m => m.roadmapModuleId)

/-- The ids of the Project's Roadmap Modules. -/
def roadmapIds (b : BookProject) : List String :=
  (roadmapModulesOf b).map (fun m => m.id)

/-- Modelled from the spec: the Assembly Stage "concatenates completed
module content plus a generated summary into the final artifact"
(`bookService.assembleFinalBook` is declared and invoked by App.tsx but its
body is not among the sources). -/
def assembleText (modules : List BookModule) (summary : String) : String :=
  String.join (modules.map (fun m => m.content)) ++ summary

/-- Modelled from the spec: a Module Result is created when generation for
its module succeeds, and "a prior error result for the same roadmap-module
id is replaced, not duplicated, on retry" (the module loop lives in the
absent `bookService`). -/
def upsertModuleResult (m : BookModule) (ms : List BookModule) : List BookModule :=
  if ms.any (fun x => x.roadmapModuleId == m.roadmapModuleId) then
    ms.map (fun x => if x.roadmapModuleId == m.roadmapModuleId then m else x)
  else ms ++ [m]

/-- The Project transitions of the generation pipeline.  `roadmapOk`,
`roadmapFail` (App.tsx `handleCreateBookRoadmap`), `detectCompletion` (the
completion-detection effect), `assembleFail` (App.tsx `handleAssembleBook`
catch branch) and `editFinalBook` (BookView `handleSaveChanges`, which only
saves a non-empty edited text, through App.tsx `handleUpdateBookContent`)
are translations of the sources.  `startGeneration`, `moduleCompleted` and
`assembleOk` are Modelled from the spec: the module loop and
`assembleFinalBook` live in the absent `bookService`; per spec §4.1 the
orchestrator mutates modules during `generating_content`, and assembly
requires every roadmap module completed (also enforced in BookView, which
only offers assembly when `areAllModulesDone` holds and the book is not yet
completed) and sets the final artifact and `completed`.  The non-empty
summary hypothesis reflects the source treatment of empty generation
results as failures (`No content generated` in `handleStreamResponse`). -/
inductive BookStep : BookProject → BookProject → Prop where
  | roadmapOk (b : BookProject) (r : BookRoadmap)
      (hst : b.status = .planning)
      (hids : (r.modules.map (fun m => m.id)).Nodup) :
      BookStep b { b with roadmap := some r, status := .roadmap_completed, progress := 10 }
  | roadmapFail (b : BookProject) (msg : String)
      (hst : b.status = .planning) :
      BookStep b { b with status := .error, error := some msg }
  | startGeneration (b : BookProject)
      (hst : b.status = .roadmap_completed) :
      BookStep b { b with status := .generating_content }
  | moduleCompleted (b : BookProject) (m : BookModule)
      (hst : b.status = .generating_content)
      (hid : m.roadmapModuleId ∈ roadmapIds b) :
      BookStep b { b with modules := upsertModuleResult m b.modules }
  | detectCompletion (b : BookProject)
      (hst : b.status = .generating_content)
      (hall : areAllModulesDone b = true) :
      BookStep b { b with status := .roadmap_completed, progress := 90 }
  | assembleOk (b : BookProject) (summary : String)
      (hall : areAllModulesDone b = true)
      (hnc : b.status ≠ .completed)
      (hsum : summary ≠ "") :
      BookStep b { b with status := .completed, progress := 100,
                          finalBook := some (assembleText b.modules summary) }
  | assembleFail (b : BookProject) (msg : String) :
      BookStep b { b with status := .error, error := some msg }
  | editFinalBook (b : BookProject) (c : String) (hc : c ≠ "") :
      BookStep b { b with finalBook := some c }

/-- Inductive invariant of the pipeline: Module Result back-references are
duplicate-free and point into the roadmap, roadmap ids are duplicate-free,
a planning Project has no modules yet, and a completed Project has a
non-empty final artifact and a completed Module Result for every roadmap
module. -/
def BookInv (b : BookProject) : Prop :=
  (moduleResultIds b).Nodup ∧
  (∀ k, k ∈ moduleResultIds b → k ∈ roadmapIds b) ∧
  (b.status = .planning → b.modules = []) ∧
  (b.status = .completed →
    (∃ s, b.finalBook = some s ∧ s ≠ "") ∧
    ∀ rm, rm ∈ roadmapModulesOf b →
      ∃ mr, mr ∈ b.modules ∧ mr.roadmapModuleId = rm.id ∧ mr.status = .completed)

/-- Helper: upserting a Module Result either keeps the key list unchanged
(replacement) or appends the new key (insertion). -/
theorem upsertModuleResult_ids (m : BookModule) (ms : List BookModule) :
    (upsertModuleResult m ms).map (fun x => x.roadmapModuleId) =
      if ms.any (fun x => x.roadmapModuleId == m.roadmapModuleId)
      then ms.map (fun x => x.roadmapModuleId)
      else ms.map (fun x => x.roadmapModuleId) ++ [m.roadmapModuleId] := by
  unfold upsertModuleResult
  by_cases hany : ms.any (fun x => x.roadmapModuleId == m.roadmapModuleId)
  · rw [if_pos hany, if_pos hany, List.map_map]
    apply List.map_congr_left
    intro x hx
    by_cases hk : x.roadmapModuleId == m.roadmapModuleId
    · simp only [Function.comp]
      rw [if_pos hk]
      exact (eq_of_beq hk).symm
    · simp only [Function.comp]
      rw [if_neg hk]
  · rw [if_neg hany, if_neg hany, List.map_append]
    rfl

/-- Helper: the result of an all-completed check covers every roadmap
module with a completed Module Result, given duplicate-free keys that point
into the (duplicate-free) roadmap ids. -/
theorem all_done_coverage (b : BookProject)
    (hnd : (moduleResultIds b).Nodup)
    (hsub : ∀ k, k ∈ moduleResultIds b → k ∈ roadmapIds b)
    (hall : areAllModulesDone b = true) :
    ∀ rm, rm ∈ roadmapModulesOf b →
      ∃ mr, mr ∈ b.modules ∧ mr.roadmapModuleId = rm.id ∧ mr.status = .completed := by
  unfold areAllModulesDone at hall
  cases hrm : b.roadmap with
  | none => rw [hrm] at hall; cases hall
  | some r =>
    rw [hrm] at hall
    have hall2 : (b.modules.length == r.modules.length &&
        b.modules.all (fun m => m.status == ModuleStatus.completed)) = true := hall
    rw [Bool.and_eq_true] at hall2
    have hlen : b.modules.length = r.modules.length := eq_of_beq hall2.1
    have hcompleted : ∀ mr, mr ∈ b.modules → mr.status = .completed := by
      intro mr hmr
      have := List.all_eq_true.mp hall2.2 mr hmr
      exact eq_of_beq this
    have hkeylen : (moduleResultIds b).length = (roadmapIds b).length := by
      simp [moduleResultIds, roadmapIds, roadmapModulesOf, hrm, hlen]
    have hsubperm : List.Subperm (moduleResultIds b) (roadmapIds b) :=
      List.subperm_of_subset hnd hsub
    have hperm : (moduleResultIds b).Perm (roadmapIds b) :=
      hsubperm.perm_of_length_le (by omega)
    intro rm hrmMem
    have hid : rm.id ∈ roadmapIds b := by
      unfold roadmapIds
      exact List.mem_map_of_mem _ hrmMem
    have hidKeys : rm.id ∈ moduleResultIds b := hperm.mem_iff.mpr hid
    unfold moduleResultIds at hidKeys
    obtain ⟨mr, hmr, hkey⟩ := List.mem_map.mp hidKeys
    exact ⟨mr, hmr, hkey, hcompleted mr hmr⟩

/-- The freshly created Project satisfies the pipeline invariant. -/
theorem newBookFor_inv (bookId : String) (session : BookSession) :
    BookInv (newBookFor bookId session) := by
  refine ⟨?_, ?_, ?_, ?_⟩
  · show (List.map _ []).Nodup
    simp
  · intro k hk
    simp [moduleResultIds, newBookFor] at hk
  · intro _
    rfl
  · intro h
    rw [show (newBookFor bookId session).status = BookStatus.planning from rfl] at h
    exact absurd h (by decide)

/-- Every pipeline transition preserves the invariant. -/
theorem bookStep_preserves_inv (b b2 : BookProject) (hs : BookStep b b2)
    (hinv : BookInv b) : BookInv b2 := by
  obtain ⟨hnd, hsub, hplan, hcomp⟩ := hinv
  cases hs with
  | roadmapOk r hst hids =>
    have hmods : b.modules = [] := hplan hst
    refine ⟨?_, ?_, ?_, ?_⟩
    · show (b.modules.map fun m => m.roadmapModuleId).Nodup
      rw [hmods]
      exact List.nodup_nil
    · intro k hk
      have hk2 : k ∈ b.modules.map (fun m => m.roadmapModuleId) := hk
      rw [hmods] at hk2
      cases hk2
    · intro h
      exact BookStatus.noConfusion
        (show BookStatus.roadmap_completed = BookStatus.planning from h)
    · intro h
      exact BookStatus.noConfusion
        (show BookStatus.roadmap_completed = BookStatus.completed from h)
  | roadmapFail msg hst =>
    refine ⟨hnd, hsub, ?_, ?_⟩
    · intro h
      exact BookStatus.noConfusion
        (show BookStatus.error = BookStatus.planning from h)
    · intro h
      exact BookStatus.noConfusion
        (show BookStatus.error = BookStatus.completed from h)
  | startGeneration hst =>
    refine ⟨hnd, hsub, ?_, ?_⟩
    · intro h
      exact BookStatus.noConfusion
        (show BookStatus.generating_content = BookStatus.planning from h)
    · intro h
      exact BookStatus.noConfusion
        (show BookStatus.generating_content = BookStatus.completed from h)
  | moduleCompleted m hst hid =>
    have hids := upsertModuleResult_ids m b.modules
    refine ⟨?_, ?_, ?_, ?_⟩
    · show ((upsertModuleResult m b.modules).map fun x => x.roadmapModuleId).Nodup
      rw [hids]
      by_cases hany : b.modules.any (fun x => x.roadmapModuleId == m.roadmapModuleId)
      · rw [if_pos hany]
        exact hnd
      · rw [if_neg hany]
        have hnotin : m.roadmapModuleId ∉ b.modules.map (fun x => x.roadmapModuleId) := by
          intro hmem
          obtain ⟨x, hx, hxk⟩ := List.mem_map.mp hmem
          have : b.modules.any (fun x => x.roadmapModuleId == m.roadmapModuleId) :=
            List.any_eq_true.mpr ⟨x, hx, by rw [hxk]; exact beq_self_eq_true _⟩
          exact hany this
        have hnd2 : (b.modules.map fun x => x.roadmapModuleId).Nodup := hnd
        simp [List.nodup_append, hnd2, hnotin]
    · intro k hk
      show k ∈ roadmapIds b
      have hk2 : k ∈ (upsertModuleResult m b.modules).map (fun x => x.roadmapModuleId) := hk
      rw [hids] at hk2
      by_cases hany : b.modules.any (fun x => x.roadmapModuleId == m.roadmapModuleId)
      · rw [if_pos hany] at hk2
        exact hsub k hk2
      · rw [if_neg hany] at hk2
        rcases List.mem_append.mp hk2 with hold | hnew
        · exact hsub k hold
        · rw [List.mem_singleton.mp hnew]
          exact hid
    · intro h
      have h2 : b.status = BookStatus.planning := h
      rw [hst] at h2
      exact BookStatus.noConfusion h2
    · intro h
      have h2 : b.status = BookStatus.completed := h
      rw [hst] at h2
      exact BookStatus.noConfusion h2
  | detectCompletion hst hall =>
    refine ⟨hnd, hsub, ?_, ?_⟩
    · intro h
      exact BookStatus.noConfusion
        (show BookStatus.roadmap_completed = BookStatus.planning from h)
    · intro h
      exact BookStatus.noConfusion
        (show BookStatus.roadmap_completed = BookStatus.completed from h)
  | assembleOk summary hall hnc hsum =>
    refine ⟨hnd, hsub, ?_, ?_⟩
    · intro h
      exact BookStatus.noConfusion
        (show BookStatus.completed = BookStatus.planning from h)
    · intro _
      constructor
      · exact ⟨assembleText b.modules summary, rfl,
          append_ne_empty_right _ _ hsum⟩
      · exact all_done_coverage b hnd hsub hall
  | assembleFail msg =>
    refine ⟨hnd, hsub, ?_, ?_⟩
    · intro h
      exact BookStatus.noConfusion
        (show BookStatus.error = BookStatus.planning from h)
    · intro h
      exact BookStatus.noConfusion
        (show BookStatus.error = BookStatus.completed from h)
  | editFinalBook c hc =>
    refine ⟨hnd, hsub, ?_, ?_⟩
    · intro h
      exact hplan h
    · intro h
      obtain ⟨_, hcover⟩ := hcomp h
      exact ⟨⟨c, rfl, hc⟩, hcover⟩

/-- A Project state reachable by the pipeline from its creation
(`handleCreateBookRoadmap` creates every Project as `newBookFor`). -/
def ReachableBook (b : BookProject) : Prop :=
  ∃ bookId session, Relation.ReflTransGen BookStep (newBookFor bookId session) b

/-- Every reachable Project satisfies the pipeline invariant. -/
theorem reachableBook_inv (b : BookProject) (h : ReachableBook b) : BookInv b := by
  obtain ⟨bookId, session, hsteps⟩ := h
  induction hsteps with
  | refl => exact newBookFor_inv bookId session
  | tail hab hbc ih => exact bookStep_preserves_inv _ _ hbc ih

/-- C1: every reachable Project with status `completed` has a non-empty
final artifact, and every module of its Roadmap has a corresponding Module
Result with status `completed`. -/
theorem completed_book_invariant (b : BookProject) (h : ReachableBook b)
    (hc : b.status = .completed) :
    (∃ s, b.finalBook = some s ∧ s ≠ "") ∧
    ∀ rm, rm ∈ roadmapModulesOf b →
      ∃ mr, mr ∈ b.modules ∧ mr.roadmapModuleId = rm.id ∧
        mr.status = .completed :=
  (reachableBook_inv b h).2.2.2 hc

/-- Roadmap module of the concrete completed run below. -/
def wRoadmapModule : RoadmapModule :=
  { id := "module_1", title := "Intro", objectives := [Json.str "o1"],
    estimatedTime := Json.str "3-4 hours", order := 1 }

/-- Roadmap of the concrete completed run below. -/
def wRoadmap : BookRoadmap :=
  { modules := [wRoadmapModule], totalModules := 1,
    estimatedReadingTime := Json.str "3-4 hours",
    difficultyLevel := Json.str "advanced" }

/-- The completed Module Result of the concrete run below. -/
def wModule : BookModule :=
  { id := "mr_1", roadmapModuleId := "module_1", title := "Intro",
    content := "# Intro", wordCount := 2, status := .completed }

/-- Concrete run, state 0: the freshly created Project. -/
def w0 : BookProject := newBookFor "book_1" sampleSession

/-- Concrete run, state 1: roadmap generated. -/
def w1 : BookProject :=
  { w0 with roadmap := some wRoadmap, status := .roadmap_completed, progress := 10 }

/-- Concrete run, state 2: generation started. -/
def w2 : BookProject := { w1 with status := .generating_content }

/-- Concrete run, state 3: the one module completed. -/
def w3 : BookProject := { w2 with modules := upsertModuleResult wModule w2.modules }

/-- Concrete run, state 4: assembled and completed. -/
def w4 : BookProject :=
  { w3 with status := .completed, progress := 100,
            finalBook := some (assembleText w3.modules "Summary") }

/-- C1 witness: the invariant evaluated on a concrete completed run. -/
theorem completed_book_invariant_witness :
    (∃ s, w4.finalBook = some s ∧ s ≠ "") ∧
    ∀ rm, rm ∈ roadmapModulesOf w4 →
      ∃ mr, mr ∈ w4.modules ∧ mr.roadmapModuleId = rm.id ∧
        mr.status = .completed :=
  completed_book_invariant w4
    ⟨"book_1", sampleSession,
      Relation.ReflTransGen.tail
        (Relation.ReflTransGen.tail
          (Relation.ReflTransGen.tail
            (Relation.ReflTransGen.tail
              (Relation.ReflTransGen.refl)
              (BookStep.roadmapOk w0 wRoadmap rfl (by decide)))
            (BookStep.startGeneration w1 rfl))
          (BookStep.moduleCompleted w2 wModule rfl (by decide)))
        (BookStep.assembleOk w3 "Summary" (by decide) (by decide) (by decide))⟩
    rfl
